import Mathlib

/-
Verification of the WebSocket transport of `fastapi_mcp`
(src/fastapi_mcp/transport/websocket.py, class FastApiWebSocketTransport).

The transport is embedded shallowly: Python dicts become association lists
with Python-dict semantics (insert replaces in place, pop removes by key),
`asyncio.Event` objects become entries carrying a creation token and a
set-flag, and each `async` method becomes a pure state-transition function.
Suspension points of the cooperative scheduler are modelled by explicit
oracle arguments (e.g. whether and when a correlating frame arrives on the
receive loop while a sender is waiting).
-/

/-! Association lists with Python-dict semantics. `dinsert` models
`d[k] = v` (replaces in place, appends if absent), `dlookup` models
`d.get(k)`, `derase` models `d.pop(k, None)`. -/

universe u

variable {α : Type u}

def dlookup (k : String) : List (String × α) → Option α
  | [] => none
  | (k', v) :: rest => if k = k' then some v else dlookup k rest

def dinsert (k : String) (v : α) : List (String × α) → List (String × α)
  | [] => [(k, v)]
  | (k', v') :: rest => if k = k' then (k, v) :: rest else (k', v') :: dinsert k v rest

def derase (k : String) : List (String × α) → List (String × α)
  | [] => []
  | (k', v') :: rest => if k = k' then rest else (k', v') :: derase k rest

def keys (m : List (String × α)) : List String := m.map Prod.fst

/-- Well-formedness of a dict: its keys are pairwise distinct. Every dict
built from the empty dict by `dinsert`/`derase` satisfies this. -/
def keysNodup (m : List (String × α)) : Prop := (keys m).Nodup

instance (m : List (String × α)) : Decidable (keysNodup m) := by
  unfold keysNodup; infer_instance

/-! JSON values, as produced and consumed by the wire codec. Objects and
arrays are separate mutual inductives so that equality stays decidable. -/

mutual
inductive JValue where
  | null
  | bool (b : Bool)
  | num (n : Int)
  | str (s : String)
  | arr (xs : JArr)
  | obj (fields : JObj)
deriving DecidableEq

inductive JArr where
  | nil
  | cons (hd : JValue) (tl : JArr)
deriving DecidableEq

inductive JObj where
  | nil
  | cons (k : String) (v : JValue) (tl : JObj)
deriving DecidableEq
end

/-- Field lookup in a JSON object (first binding wins, as in a dict). -/
def JObj.lookup (k : String) : JObj → Option JValue
  | .nil => none
  | .cons k' v rest => if k = k' then some v else JObj.lookup k rest

/-- The list of field names of a JSON object, in order. -/
def JObj.names : JObj → List String
  | .nil => []
  | .cons k _ rest => k :: JObj.names rest

/-! JSON-RPC message ids are strings or numbers on the wire
(`"id":<string|number>`). -/

inductive RId where
  | str (s : String)
  | num (n : Int)
deriving DecidableEq

/-- Python `str(id)` as applied by the transport when it keys the
pending-request and response dicts (`request_id = str(message.root.id)`,
lines 185–186 and 222). `str` of an `int` and of its decimal string
coincide, so distinct wire ids can collide under this conversion. -/
def RId.pyStr : RId → String
  | .str s => s
  | .num n => toString n

/-- The wire message model: the tagged union of the spec's §3/§6
(Request, Response, Error, Notification). `params`, `result` and error
`data` are JSON objects per the wire shapes of §6. -/
inductive Message where
  | request (id : RId) (method : String) (params : JObj)
  | response (id : RId) (result : JObj)
  | error (id : Option RId) (code : Int) (message : String) (data : Option JObj)
  | notification (method : String) (params : JObj)
deriving DecidableEq

/-! The Message Codec. The transport delegates serialization to
`JSONRPCMessage.model_validate_json` / `model_dump_json` of the MCP SDK
(used at lines 88, 95, 110, 181, 218), whose source is not part of this
repository. It is therefore modelled from the spec. The JSON-text layer
(bytes of the frame) is abstracted to the JSON value it denotes; `encode`
and `decode` below translate between `Message` and that JSON value. -/

/-- Modelled from the spec: the wire form of a message id,
`"id":<string|number>` (spec §6). -/
def encodeId : RId → JValue
  | .str s => .str s
  | .num n => .num n

/-- Modelled from the spec: id field acceptance, string or number. -/
def decodeId : JValue → Option RId
  | .str s => some (.str s)
  | .num n => some (.num n)
  | _ => none

/-- Modelled from the spec: `encode(Message) -> bytes` of §4.2, total for
any valid Message, producing the wire shapes of §6 (the serialization done
in the source by `model_dump_json` of the MCP SDK, absent from src). -/
def encode : Message → JValue
  | .request i method params =>
      .obj (.cons "jsonrpc" (.str "2.0") (.cons "id" (encodeId i)
        (.cons "method" (.str method) (.cons "params" (.obj params) .nil))))
  | .response i result =>
      .obj (.cons "jsonrpc" (.str "2.0") (.cons "id" (encodeId i)
        (.cons "result" (.obj result) .nil)))
  | .error i code msg d =>
      .obj (.cons "jsonrpc" (.str "2.0")
        (.cons "id" (match i with | some j => encodeId j | none => .null)
          (.cons "error" (.obj (.cons "code" (.num code) (.cons "message" (.str msg)
            (match d with | some dd => .cons "data" (.obj dd) .nil | none => .nil))))
            .nil)))
  | .notification method params =>
      .obj (.cons "jsonrpc" (.str "2.0")
        (.cons "method" (.str method) (.cons "params" (.obj params) .nil)))

/-- Modelled from the spec: `decode(bytes) -> Message` of §4.2, failing
with `ParseError` when the payload is not well-formed per the tagged-union
shape of §3/§6, with no partial acceptance (the validation done in the
source by `model_validate_json` of the MCP SDK, absent from src). -/
def decode (v : JValue) : Except String Message :=
  match v with
  | .obj fields =>
    match fields.lookup "jsonrpc" with
    | some (.str ver) =>
      if ver = "2.0" then
        match fields.lookup "method" with
        | some (.str m) =>
          match fields.lookup "params" with
          | some (.obj p) =>
            match fields.lookup "id" with
            | some idv =>
              match decodeId idv with
              | some i => .ok (.request i m p)
              | none => .error "Parse error: invalid id"
            | none => .ok (.notification m p)
          | _ => .error "Parse error: invalid params"
        | some _ => .error "Parse error: invalid method"
        | none =>
          match fields.lookup "result" with
          | some (.obj r) =>
            match fields.lookup "id" with
            | some idv =>
              match decodeId idv with
              | some i => .ok (.response i r)
              | none => .error "Parse error: invalid id"
            | none => .error "Parse error: missing id"
          | some _ => .error "Parse error: invalid result"
          | none =>
            match fields.lookup "error" with
            | some (.obj e) =>
              match e.lookup "code", e.lookup "message" with
              | some (.num c), some (.str msg) =>
                match (match e.lookup "data" with
                       | some (.obj dd) => some (some dd)
                       | none => some none
                       | some _ => none) with
                | some d =>
                  match fields.lookup "id" with
                  | some .null => .ok (.error none c msg d)
                  | some idv =>
                    match decodeId idv with
                    | some i => .ok (.error (some i) c msg d)
                    | none => .error "Parse error: invalid id"
                  | none => .error "Parse error: missing id"
                | none => .error "Parse error: invalid error data"
              | _, _ => .error "Parse error: invalid error object"
            | _ => .error "Parse error: unknown message shape"
      else .error "Parse error: wrong jsonrpc version"
    | _ => .error "Parse error: missing jsonrpc"
  | _ => .error "Parse error: not an object"


/-! The transport state and its operations, embedded from
`FastApiWebSocketTransport` line by line. -/

/-- An `asyncio.Event` entry of the `pending_requests` dict (line 61).
`token` identifies the concrete Event object (a fresh one is created at
line 195 for every registration, numbered in creation order); `isSet` is
the event's flag. -/
structure PEntry where
  token : Nat
  isSet : Bool
deriving DecidableEq

/-- The constructor configuration (lines 25–50): the TransportConfig of
spec §3. The timeout/interval floats are modelled as rationals; every
value the source mentions is exactly representable. -/
structure TransportConfig where
  connection_timeout : ℚ
  ping_interval : Option ℚ
  ping_timeout : Option ℚ
  close_timeout : Option ℚ
  external_ws_url : Option String
deriving DecidableEq

/-- The constructor defaults (lines 28–32). -/
def TransportConfig.defaults : TransportConfig :=
  { connection_timeout := 30,
    ping_interval := some 20,
    ping_timeout := some 20,
    close_timeout := some 10,
    external_ws_url := none }

/-- The keyword arguments `connect_to_external_websocket` passes to
`websockets.connect` (lines 150–155): exactly `ping_interval`,
`ping_timeout` and `close_timeout`. No handshake/open timeout derived from
`connection_timeout` is among them, and `connection_timeout` is read
nowhere in the class after being stored at line 47. -/
def connect_kwargs (cfg : TransportConfig) : List (String × Option ℚ) :=
  [("ping_interval", cfg.ping_interval),
   ("ping_timeout", cfg.ping_timeout),
   ("close_timeout", cfg.close_timeout)]

/-- The mutable state of `FastApiWebSocketTransport` (lines 52–62).
`external_conn_open` stands for `external_ws_connection is not None and
not external_ws_connection.closed`; `task_live` for
`external_connection_task is not None and not external_connection_task.done()`.
`next_token` numbers the `asyncio.Event` objects in creation order. -/
structure TransportState where
  active_connections : List String
  external_conn_open : Bool
  task_live : Bool
  pending_requests : List (String × PEntry)
  responses : List (String × Message)
  next_token : Nat
deriving DecidableEq

/-- The freshly constructed transport (lines 52–62): no sessions, no
external connection, empty dicts. -/
def TransportState.initial : TransportState :=
  { active_connections := [],
    external_conn_open := false,
    task_live := false,
    pending_requests := [],
    responses := [],
    next_token := 0 }

/-- The caller-visible outcome of `connect_to_external_websocket`.
`raisedAlreadyConnected` is the outcome the spec prescribes for a connect
while one is live; it is part of the type so that the claim can be stated,
and the code never produces it. -/
inductive ConnectOutcome where
  | alreadyConnectedWarning
  | connected
  | raisedConnectError
  | raisedAlreadyConnected
deriving DecidableEq

/-- `connect_to_external_websocket` (lines 135–166), under the connection
lock. If a connection is live, lines 143–145 log a warning and return
normally, leaving all state untouched. Otherwise `websockets.connect` runs
— `handshakeOk` is the oracle for its success: on success the receive-loop
task is started and the connection recorded (lines 150–160); on failure the
exception is logged and re-raised with no state change (lines 164–166). -/
def connect_to_external_websocket (s : TransportState) (handshakeOk : Bool) :
    ConnectOutcome × TransportState :=
  if s.external_conn_open then (.alreadyConnectedWarning, s)
  else if handshakeOk then
    (.connected, { s with external_conn_open := true, task_live := true })
  else (.raisedConnectError, s)

/-- One iteration of `_listen_external_websocket` (lines 213–237) on a
frame that validated to `parsed`: a `JSONRPCResponse` whose stringified id
has a pending entry stores the response under that id and sets that
entry's event (lines 221–225); a response with an unknown id is only
logged as a warning (line 227); every other message kind goes to
`_process_external_message`, which only logs (lines 229–232, 328–336).
Frames failing validation are also only logged (lines 234–235) and leave
the state unchanged. -/
def listen_external_websocket_step (s : TransportState) (parsed : Message) :
    TransportState :=
  match parsed with
  | .response i result =>
    let rid := i.pyStr
    match dlookup rid s.pending_requests with
    | some e =>
      { s with responses := dinsert rid (Message.response i result) s.responses,
               pending_requests := dinsert rid { e with isSet := true } s.pending_requests }
    | none => s
  | _ => s

/-- The `finally` block of `_listen_external_websocket` (lines 243–247),
run when the receive-loop task ends (connection closed, listener error, or
cancellation): sets every pending entry's event — waking every waiter —
and clears the dict. The second component is the ids of the woken
waiters. -/
def listen_external_websocket_cleanup (s : TransportState) :
    TransportState × List String :=
  ({ s with pending_requests := [] }, keys s.pending_requests)

/-- The caller-visible outcome of the registration at lines 194–196.
`duplicateIdError` is the outcome the spec prescribes for an id that is
already registered; it is part of the type so that the claim can be
stated, and the code never produces it. -/
inductive RegisterOutcome where
  | registered
  | duplicateIdError
deriving DecidableEq

/-- Lines 194–196 of `send_to_external_websocket`: a fresh `asyncio.Event`
is created and stored under the request id — unconditionally, replacing
whatever entry was registered under that id. -/
def register_pending (s : TransportState) (rid : String) :
    RegisterOutcome × TransportState :=
  (.registered,
   { s with pending_requests := dinsert rid ⟨s.next_token, false⟩ s.pending_requests,
            next_token := s.next_token + 1 })

/-- Lines 200–204 of `send_to_external_websocket`, once the waiter's event
is set: the caller returns `self.responses.pop(request_id, None)` and the
`finally` clause pops its pending entry. -/
def complete_send (s : TransportState) (rid : String) :
    Option Message × TransportState :=
  (dlookup rid s.responses,
   { s with responses := derase rid s.responses,
            pending_requests := derase rid s.pending_requests })

/-- The fixed request deadline of `asyncio.wait_for(response_event.wait(),
timeout=30.0)` at line 200, in seconds. -/
def request_timeout_seconds : Nat := 30

/-- The caller-visible outcome of `send_to_external_websocket`:
`notConnectedError` is the `ConnectionError("Not connected to external
WebSocket")` of line 179; `returned r` a normal return of `r`;
`requestTimeout` the `asyncio.TimeoutError` from line 200, logged and
re-raised by lines 206–208. -/
inductive SendOutcome where
  | notConnectedError
  | returned (r : Option Message)
  | requestTimeout
deriving DecidableEq

/-- `send_to_external_websocket` (lines 168–208). Fails if no connection
is live (lines 178–179). For a `JSONRPCRequest` with a truthy stringified
id it registers a fresh pending event and waits up to the 30-second
deadline; `arrival` is the scheduling oracle: `some (t, frame)` means the
external receive loop handles `frame` at `t` seconds into the wait, `none`
that no frame arrives before the deadline. If the caller's event is set
before the deadline it pops and returns the stored response (lines
200–204); otherwise the wait raises `asyncio.TimeoutError` and the
`finally` clause pops the pending entry — a frame arriving after the
deadline is handled by the receive loop only after that pop. Non-request
messages (and requests whose stringified id is falsy, i.e. the empty
string) are sent without waiting and the call returns `None` (lines
185–193, no `return` reached). -/
def send_to_external_websocket (s : TransportState) (msg : Message)
    (arrival : Option (Nat × Message)) : SendOutcome × TransportState :=
  if s.external_conn_open = false then (.notConnectedError, s)
  else
    match msg with
    | .request i _ _ =>
      let rid := i.pyStr
      if rid = "" then (.returned none, s)
      else
        let tok := s.next_token
        let s1 := (register_pending s rid).2
        match arrival with
        | some (t, frame) =>
          if t < request_timeout_seconds then
            let s2 := listen_external_websocket_step s1 frame
            if dlookup rid s2.pending_requests = some ⟨tok, true⟩ then
              let (r, s3) := complete_send s2 rid
              (.returned r, s3)
            else
              (.requestTimeout,
               { s2 with pending_requests := derase rid s2.pending_requests })
          else
            let s2 : TransportState :=
              { s1 with pending_requests := derase rid s1.pending_requests }
            (.requestTimeout, listen_external_websocket_step s2 frame)
        | none =>
          (.requestTimeout,
           { s1 with pending_requests := derase rid s1.pending_requests })
    | _ => (.returned none, s)

/-- `disconnect_external_websocket` (lines 338–350), under the connection
lock: cancels a live receive-loop task and awaits it — which runs the
loop's `finally` cleanup, waking every pending waiter and clearing the
table — then closes the socket if open. Idempotent: with no live task and
no open connection it does nothing. The second component is the ids of the
waiters the cleanup woke. -/
def disconnect_external_websocket (s : TransportState) :
    TransportState × List String :=
  let (s1, woken) :=
    if s.task_live then
      let (sc, w) := listen_external_websocket_cleanup s
      ({ sc with task_live := false }, w)
    else (s, [])
  if s1.external_conn_open then ({ s1 with external_conn_open := false }, woken)
  else (s1, woken)

/-- The outcome a caller blocked in `send_to_external_websocket` observes
when `disconnect_external_websocket` runs meanwhile: the cleanup sets its
event, the caller wakes and executes lines 201–204 against the
post-disconnect state. `connectionClosedFailure` is the outcome the spec
prescribes; it is part of the type so that the claim can be stated, and
the code never produces it — the woken caller just returns
`self.responses.pop(request_id, None)`. -/
inductive WakeOutcome where
  | returned (r : Option Message)
  | connectionClosedFailure
deriving DecidableEq

/-- A waiter with id `rid` blocked at line 200 while
`disconnect_external_websocket` runs: it is woken by the cleanup and then
runs lines 201–204. -/
def wake_after_disconnect (s : TransportState) (rid : String) :
    WakeOutcome × TransportState :=
  let s' := (disconnect_external_websocket s).1
  let (r, s'') := complete_send s' rid
  (.returned r, s'')

/-- `shutdown` (lines 352–368): closes every inbound session, tolerating
individual close failures (lines 357–361), clears the session dict (line
363), then calls `disconnect_external_websocket` (line 366). `closeFails`
is the oracle for which sessions' `close()` raises; those failures are
logged and never re-raised — the second component lists them. -/
def shutdown (closeFails : String → Bool) (s : TransportState) :
    TransportState × List String :=
  let failures := s.active_connections.filter closeFails
  let s1 : TransportState := { s with active_connections := [] }
  ((disconnect_external_websocket s1).1, failures)

/-- The result object built for `initialize` (lines 271–287): note the
fourth capability key `"logging"` at line 280. -/
def initialize_result : JObj :=
  .cons "protocolVersion" (.str "2024-11-05")
    (.cons "capabilities"
      (.obj (.cons "tools" (.obj .nil)
        (.cons "resources" (.obj .nil)
          (.cons "prompts" (.obj .nil)
            (.cons "logging" (.obj .nil) .nil)))))
      (.cons "serverInfo"
        (.obj (.cons "name" (.str "FastAPI-MCP WebSocket Server")
          (.cons "version" (.str "0.4.0") .nil)))
        .nil))

/-- `_process_mcp_message` (lines 249–326) on a parsed message. `tools` is
the dump of the MCP server's registered tools (lines 290–298).
`initialize` and `tools/list` return a `JSONRPCResponse` carrying the
request's id; any other method returns the `-32601` Method-not-found
`JSONRPCError` with the offending method in its data (lines 300–312);
non-request messages fall through to `return None` (line 326). -/
def process_mcp_message (tools : JArr) (msg : Message) : Option Message :=
  match msg with
  | .request rid method _ =>
    if method = "initialize" then
      some (.response rid initialize_result)
    else if method = "tools/list" then
      some (.response rid (.cons "tools" (.arr tools) .nil))
    else
      some (.error (some rid) (-32601) "Method not found"
        (some (.cons "method" (.str method) .nil)))
  | _ => none

/-- What one loop iteration of `handle_fastapi_websocket` does with the
received frame: send a reply frame, or send none. -/
inductive SessionAction where
  | reply (m : Message)
  | noReply
deriving DecidableEq

/-- One iteration of the receive loop of `handle_fastapi_websocket`
(lines 81–123). `frame` is the outcome of validating the received text
(line 88: `.error e` for a `ValidationError`); `procException` is the
oracle for an exception escaping to the loop's generic handler (lines
112–123), e.g. raised out of dispatch into the loop. A validation failure
is answered by the id-null `-32700` Parse-error frame (lines 99–110); an
escaped exception by the id-null `-32603` Internal-error frame (lines
112–123); both handlers end inside the `while True` body, so the Boolean
component — whether the loop proceeds to the next frame — is true. -/
def handle_fastapi_websocket_step (tools : JArr) (frame : Except String Message)
    (procException : Option String) : SessionAction × Bool :=
  match frame with
  | .error e =>
    (.reply (.error none (-32700) "Parse error"
      (some (.cons "validation_error" (.str e) .nil))), true)
  | .ok m =>
    match procException with
    | some e =>
      (.reply (.error none (-32603) "Internal error"
        (some (.cons "error" (.str e) .nil))), true)
    | none =>
      match process_mcp_message tools m with
      | some r => (.reply r, true)
      | none => (.noReply, true)

/-! States used to instantiate the theorems below at concrete inputs. -/

/-- A transport with a live external connection and running receive loop,
no sessions, nothing pending. -/
def connected_empty_state : TransportState :=
  { TransportState.initial with external_conn_open := true, task_live := true }

/-- A live transport with one caller waiting on stringified id `"1"`. -/
def one_waiter_state : TransportState :=
  { connected_empty_state with
      pending_requests := [("1", ⟨0, false⟩)], next_token := 1 }

/-- A live transport with two callers waiting, on stringified ids `"a"`
and `"b"`. -/
def two_waiter_state : TransportState :=
  { connected_empty_state with
      pending_requests := [("a", ⟨0, false⟩), ("b", ⟨1, false⟩)], next_token := 2 }

/-- The correlator state after the collision scenario: a caller sends a
request with id the number `1` (registering event 0 under `str(1) = "1"`),
a second caller sends a request with id the string `"1"` (registering
event 1 under the same key, replacing event 0), and then the peer's
response to the first request — response id the number `1` — arrives on
the receive loop. -/
def collision_state : TransportState :=
  listen_external_websocket_step
    ((register_pending ((register_pending connected_empty_state
        (RId.num 1).pyStr).2) (RId.str "1").pyStr).2)
    (Message.response (RId.num 1) .nil)

/-- A transport in full flight: two inbound sessions, a live external
connection and one pending request. -/
def busy_state : TransportState :=
  { active_connections := ["s1", "s2"],
    external_conn_open := true,
    task_live := true,
    pending_requests := [("1", ⟨0, false⟩)],
    responses := [],
    next_token := 1 }

/-- The field names of the `capabilities` object of an initialize
result. -/
def capability_names (result : JObj) : List String :=
  match result.lookup "capabilities" with
  | some (.obj caps) => caps.names
  | _ => []

/-- The initialize result shape exactly as the spec's §6 states it
(written from the spec's words, for comparison with `initialize_result`
from the code): capabilities with exactly the keys tools, resources,
prompts. -/
def spec_initialize_result (name version : String) : JObj :=
  .cons "protocolVersion" (.str "2024-11-05")
    (.cons "capabilities"
      (.obj (.cons "tools" (.obj .nil)
        (.cons "resources" (.obj .nil)
          (.cons "prompts" (.obj .nil) .nil))))
      (.cons "serverInfo"
        (.obj (.cons "name" (.str name)
          (.cons "version" (.str version) .nil)))
        .nil))

/-- Two configurations differing only in `connection_timeout`. -/
def cfg_timeout_one : TransportConfig :=
  { TransportConfig.defaults with connection_timeout := 1 }

/-! Lemmas about the dict operations. -/

@[simp] theorem keys_nil : keys ([] : List (String × α)) = [] := rfl

@[simp] theorem keys_cons (k : String) (v : α) (m : List (String × α)) :
    keys ((k, v) :: m) = k :: keys m := rfl

theorem dlookup_dinsert_self (k : String) (v : α) (m : List (String × α)) :
    dlookup k (dinsert k v m) = some v := by
  induction m with
  | nil => simp [dinsert, dlookup]
  | cons p rest ih =>
    obtain ⟨k', v'⟩ := p
    by_cases h : k = k' <;> simp [dinsert, dlookup, h, ih]

theorem dlookup_dinsert_ne (a k : String) (v : α) (m : List (String × α))
    (h : a ≠ k) : dlookup a (dinsert k v m) = dlookup a m := by
  induction m with
  | nil => simp [dinsert, dlookup, h]
  | cons p rest ih =>
    obtain ⟨k', v'⟩ := p
    by_cases h' : k = k'
    · subst h'; simp [dinsert, dlookup, h]
    · by_cases h'' : a = k' <;> simp [dinsert, dlookup, h', h'', ih]

theorem dlookup_derase_ne (a k : String) (m : List (String × α))
    (h : a ≠ k) : dlookup a (derase k m) = dlookup a m := by
  induction m with
  | nil => simp [derase]
  | cons p rest ih =>
    obtain ⟨k', v'⟩ := p
    by_cases h' : k = k'
    · subst h'; simp [derase, dlookup, h]
    · by_cases h'' : a = k' <;> simp [derase, dlookup, h', h'', ih]

theorem dlookup_eq_none_iff (k : String) (m : List (String × α)) :
    dlookup k m = none ↔ k ∉ keys m := by
  induction m with
  | nil => simp [dlookup]
  | cons p rest ih =>
    obtain ⟨k', v'⟩ := p
    by_cases h : k = k'
    · subst h; simp [dlookup]
    · simp [dlookup, h, ih]

theorem mem_keys_dinsert (a k : String) (v : α) (m : List (String × α)) :
    a ∈ keys (dinsert k v m) ↔ a = k ∨ a ∈ keys m := by
  induction m with
  | nil => simp [dinsert]
  | cons p rest ih =>
    obtain ⟨k', v'⟩ := p
    by_cases h : k = k'
    · subst h
      simp [dinsert]
      try tauto
    · simp [dinsert, h, ih]
      try tauto

theorem keysNodup_dinsert (k : String) (v : α) (m : List (String × α))
    (h : keysNodup m) : keysNodup (dinsert k v m) := by
  induction m with
  | nil => simp [dinsert, keysNodup]
  | cons p rest ih =>
    obtain ⟨k', v'⟩ := p
    by_cases hk : k = k'
    · subst hk; simpa [dinsert, keysNodup] using h
    · have h' : k' ∉ keys rest ∧ keysNodup rest := by
        simpa [keysNodup, List.nodup_cons] using h
      have hgoal : keysNodup ((k', v') :: dinsert k v rest) := by
        simp [keysNodup, List.nodup_cons]
        refine ⟨fun hmem => ?_, ih h'.2⟩
        rcases (mem_keys_dinsert k' k v rest).1 hmem with h1 | h1
        · exact hk h1.symm
        · exact h'.1 h1
      simpa [dinsert, hk] using hgoal

theorem dlookup_derase_self (k : String) (m : List (String × α))
    (h : keysNodup m) : dlookup k (derase k m) = none := by
  induction m with
  | nil => simp [derase, dlookup]
  | cons p rest ih =>
    obtain ⟨k', v'⟩ := p
    have h' : k' ∉ keys rest ∧ keysNodup rest := by
      simpa [keysNodup, List.nodup_cons] using h
    by_cases hk : k = k'
    · subst hk
      simp [derase]
      exact (dlookup_eq_none_iff k rest).2 h'.1
    · simp [derase, dlookup, hk, ih h'.2]

theorem derase_sublist (k : String) (m : List (String × α)) :
    (derase k m).Sublist m := by
  induction m with
  | nil => simp [derase]
  | cons p rest ih =>
    obtain ⟨k', v'⟩ := p
    by_cases h : k = k'
    · simp [derase, h]
    · simpa [derase, h] using List.Sublist.cons₂ (k', v') ih

theorem keysNodup_derase (k : String) (m : List (String × α))
    (h : keysNodup m) : keysNodup (derase k m) := by
  unfold keysNodup keys at h ⊢
  exact h.sublist ((derase_sublist k m).map Prod.fst)


/-! Helper lemmas about the receive-loop step. -/

theorem listen_step_pending_lookup_ne (s : TransportState) (frame : Message)
    (a : String)
    (h : ∀ j res, frame = Message.response j res → j.pyStr ≠ a) :
    dlookup a (listen_external_websocket_step s frame).pending_requests
      = dlookup a s.pending_requests := by
  cases frame with
  | response j res =>
    have hne : a ≠ j.pyStr := fun heq => (h j res rfl) heq.symm
    cases hj : dlookup j.pyStr s.pending_requests with
    | none => simp [listen_external_websocket_step, hj]
    | some e =>
      have hd := dlookup_dinsert_ne a j.pyStr ({ e with isSet := true })
        s.pending_requests hne
      simp [listen_external_websocket_step, hj, hd]
  | request i m p => rfl
  | error i c m d => rfl
  | notification m p => rfl

theorem listen_step_pending_none (s : TransportState) (frame : Message)
    (a : String) (h : dlookup a s.pending_requests = none) :
    dlookup a (listen_external_websocket_step s frame).pending_requests = none := by
  cases frame with
  | response j res =>
    cases hj : dlookup j.pyStr s.pending_requests with
    | none => simpa [listen_external_websocket_step, hj] using h
    | some e =>
      have hne : a ≠ j.pyStr := by
        intro heq
        rw [heq, hj] at h
        exact Option.noConfusion h
      have hd := dlookup_dinsert_ne a j.pyStr ({ e with isSet := true })
        s.pending_requests hne
      simp [listen_external_websocket_step, hj, hd, h]
  | request i m p => exact h
  | error i c m d => exact h
  | notification m p => exact h

theorem listen_step_keysNodup (s : TransportState) (frame : Message)
    (h : keysNodup s.pending_requests) :
    keysNodup (listen_external_websocket_step s frame).pending_requests := by
  cases frame with
  | response j res =>
    cases hj : dlookup j.pyStr s.pending_requests with
    | none => simpa [listen_external_websocket_step, hj] using h
    | some e =>
      simpa [listen_external_websocket_step, hj] using
        keysNodup_dinsert j.pyStr ({ e with isSet := true }) s.pending_requests h
  | request i m p => exact h
  | error i c m d => exact h
  | notification m p => exact h

/-! Claim theorems. -/

/-- C8: for every representable Message `m` (request, response, error, or
notification), decoding the value produced by encoding `m` yields exactly
`m`: the codec round-trip law `decode(encode(m)) == m`. -/
theorem codec_round_trip (m : Message) : decode (encode m) = .ok m := by
  cases m with
  | request i method params =>
    cases i <;> simp [encode, decode, JObj.lookup, encodeId, decodeId]
  | response i result =>
    cases i <;> simp [encode, decode, JObj.lookup, encodeId, decodeId]
  | error i code msg d =>
    cases i with
    | none => cases d <;> simp [encode, decode, JObj.lookup, encodeId, decodeId]
    | some j => cases j <;> cases d <;> simp [encode, decode, JObj.lookup, encodeId, decodeId]
  | notification method params =>
    simp [encode, decode, JObj.lookup, encodeId, decodeId]

/-- C1 (counterexample): the claim fails as stated because correlation is
keyed by Python `str(id)`. The ids `1` (number) and `"1"` (string) are
pairwise distinct, yet in `collision_state` — caller A sent a request with
id `1` (event token 0), caller B then sent a request with id `"1"` (event
token 1, silently replacing A's entry under the shared key `"1"`), and the
peer's response to A's request arrived — it is B's event that is set
(entry token 1), A's event 0 is gone and never set (A is left to time
out), and the woken caller B pops and receives the response whose id is
`1`, another caller's response. -/
theorem correlation_counterexample :
    RId.num 1 ≠ RId.str "1" ∧
    (RId.num 1).pyStr = (RId.str "1").pyStr ∧
    dlookup (RId.str "1").pyStr collision_state.pending_requests
      = some ⟨1, true⟩ ∧
    (complete_send collision_state (RId.str "1").pyStr).1
      = some (Message.response (RId.num 1) .nil) := by decide

/-- C1 (amended): for requests whose ids are pairwise distinct *after
Python string conversion* (the transport correlates by `str(id)`), when a
response frame whose stringified id matches pending entry `i` arrives on
the receive loop, exactly that entry's event is set and exactly that
caller pops this response; any other caller `j`'s pending entry, response
slot, and eventual pop are unaffected, both by the resolution and by the
winner's completion. -/
theorem correlation_amended (s : TransportState) (i j : String) (r : RId)
    (res : JObj) (ei ej : PEntry)
    (hij : i ≠ j) (hr : r.pyStr = i)
    (hi : dlookup i s.pending_requests = some ei)
    (hj : dlookup j s.pending_requests = some ej) :
    dlookup i (listen_external_websocket_step s (.response r res)).responses
      = some (.response r res) ∧
    dlookup i (listen_external_websocket_step s (.response r res)).pending_requests
      = some { ei with isSet := true } ∧
    dlookup j (listen_external_websocket_step s (.response r res)).pending_requests
      = some ej ∧
    dlookup j (listen_external_websocket_step s (.response r res)).responses
      = dlookup j s.responses ∧
    (complete_send (listen_external_websocket_step s (.response r res)) i).1
      = some (.response r res) ∧
    dlookup j (complete_send (listen_external_websocket_step s (.response r res)) i).2.pending_requests
      = some ej ∧
    dlookup j (complete_send (listen_external_websocket_step s (.response r res)) i).2.responses
      = dlookup j s.responses := by
  have hstep : listen_external_websocket_step s (.response r res) =
      { s with responses := dinsert i (Message.response r res) s.responses,
               pending_requests := dinsert i { ei with isSet := true } s.pending_requests } := by
    simp [listen_external_websocket_step, hr, hi]
  have h1 := dlookup_dinsert_self i (Message.response r res) s.responses
  have h2 := dlookup_dinsert_self i ({ ei with isSet := true }) s.pending_requests
  have h3 := dlookup_dinsert_ne j i ({ ei with isSet := true }) s.pending_requests
    (Ne.symm hij)
  have h4 := dlookup_dinsert_ne j i (Message.response r res) s.responses
    (Ne.symm hij)
  have h5 := dlookup_derase_ne j i
    (dinsert i ({ ei with isSet := true }) s.pending_requests) (Ne.symm hij)
  have h6 := dlookup_derase_ne j i
    (dinsert i (Message.response r res) s.responses) (Ne.symm hij)
  rw [hstep]
  simp [complete_send, h1, h2, h3, h4, h5, h6, hj]

/-- C1 (witness): the amended theorem applied to a live transport with
two waiters on distinct stringified ids `"a"` and `"b"`. -/
theorem correlation_amended_witness :
    dlookup "a" (listen_external_websocket_step two_waiter_state
        (.response (RId.str "a") .nil)).responses
      = some (.response (RId.str "a") .nil) :=
  (correlation_amended two_waiter_state "a" "b" (RId.str "a") .nil
    ⟨0, false⟩ ⟨1, false⟩ (by decide) (by decide) (by decide) (by decide)).1

/-- C2: a request sent on a live external connection (a `JSONRPCRequest`
with a truthy stringified id, i.e. one that actually waits) for which no
correlating response frame is handled by the receive loop within the fixed
30-second deadline of line 200 fails with the request-timeout error
(`asyncio.TimeoutError`, logged and re-raised by lines 206–208), and
afterward the correlator holds no entry for that request's id — the
`finally` clause of lines 202–204 popped it. The `keysNodup` hypothesis is
the dict well-formedness invariant; `hmiss` says no frame arriving before
the deadline is a response whose stringified id matches. -/
theorem send_request_timeout_no_leak (s : TransportState) (i : RId)
    (method : String) (params : JObj) (arrival : Option (Nat × Message))
    (hconn : s.external_conn_open = true)
    (hid : i.pyStr ≠ "")
    (hnodup : keysNodup s.pending_requests)
    (hmiss : ∀ t frame, arrival = some (t, frame) → t < request_timeout_seconds →
      ∀ j res, frame = Message.response j res → j.pyStr ≠ i.pyStr) :
    (send_to_external_websocket s (.request i method params) arrival).1
      = SendOutcome.requestTimeout ∧
    dlookup i.pyStr
      (send_to_external_websocket s (.request i method params) arrival).2.pending_requests
      = none := by
  have hnodup1 : keysNodup (dinsert i.pyStr (⟨s.next_token, false⟩ : PEntry)
      s.pending_requests) := keysNodup_dinsert _ _ _ hnodup
  cases arrival with
  | none =>
    refine ⟨by simp [send_to_external_websocket, hconn, hid, register_pending], ?_⟩
    simp [send_to_external_websocket, hconn, hid, register_pending]
    exact dlookup_derase_self _ _ hnodup1
  | some tf =>
    obtain ⟨t, frame⟩ := tf
    by_cases ht : t < request_timeout_seconds
    · have hne := hmiss t frame rfl ht
      have hlook : dlookup i.pyStr (listen_external_websocket_step
          ((register_pending s i.pyStr).2) frame).pending_requests
          = some ⟨s.next_token, false⟩ := by
        rw [listen_step_pending_lookup_ne _ _ _ hne]
        simp [register_pending, dlookup_dinsert_self]
      have hnodup2 : keysNodup (listen_external_websocket_step
          ((register_pending s i.pyStr).2) frame).pending_requests :=
        listen_step_keysNodup _ _ (by simpa [register_pending] using hnodup1)
      refine ⟨by simp [send_to_external_websocket, hconn, hid, ht, hlook], ?_⟩
      simp [send_to_external_websocket, hconn, hid, ht, hlook]
      exact dlookup_derase_self _ _ hnodup2
    · refine ⟨by simp [send_to_external_websocket, hconn, hid, ht], ?_⟩
      simp [send_to_external_websocket, hconn, hid, ht]
      apply listen_step_pending_none
      simp [register_pending]
      exact dlookup_derase_self _ _ hnodup1

/-- C2 (witness): a request with id `"1"` on a live transport with no
frame ever arriving times out. -/
theorem send_request_timeout_no_leak_witness :
    (send_to_external_websocket connected_empty_state
        (.request (RId.str "1") "tools/list" .nil) none).1
      = SendOutcome.requestTimeout :=
  (send_request_timeout_no_leak connected_empty_state (RId.str "1")
    "tools/list" .nil none (by decide) (by decide) (by decide)
    (fun t frame h => Option.noConfusion h)).1

/-- C3 (counterexample): the claim fails as stated. In `one_waiter_state`
a caller is still awaiting id `"1"` when `disconnect_external_websocket`
runs. The cleanup does wake it (its id is in the woken list) and clears
the table, but the woken caller then just returns
`self.responses.pop("1", None)`, i.e. a normal return of `None` — not a
`ConnectionClosed` failure. -/
theorem disconnect_waiter_counterexample :
    (disconnect_external_websocket one_waiter_state).2 = ["1"] ∧
    (wake_after_disconnect one_waiter_state "1").1 = WakeOutcome.returned none ∧
    (wake_after_disconnect one_waiter_state "1").1 ≠ WakeOutcome.connectionClosedFailure ∧
    (disconnect_external_websocket one_waiter_state).1.pending_requests = [] := by
  decide

/-- C3 (amended): every caller still awaiting a response when
`disconnect_external_websocket` is invoked on a transport with a live
receive-loop task is woken by the cleanup (not left blocked forever) and
its `send_to_external_websocket` call returns `None` — a normal return
carrying no response, not a `ConnectionClosed` failure — and the
pending-request table is cleared. -/
theorem disconnect_waiter_amended (s : TransportState) (rid : String) (e : PEntry)
    (htask : s.task_live = true)
    (hp : dlookup rid s.pending_requests = some e)
    (hr : dlookup rid s.responses = none) :
    rid ∈ (disconnect_external_websocket s).2 ∧
    (wake_after_disconnect s rid).1 = WakeOutcome.returned none ∧
    (disconnect_external_websocket s).1.pending_requests = [] := by
  have hmem : rid ∈ keys s.pending_requests := by
    by_contra hmem
    rw [(dlookup_eq_none_iff rid s.pending_requests).2 hmem] at hp
    exact Option.noConfusion hp
  by_cases hopen : s.external_conn_open <;>
    simp [disconnect_external_websocket, wake_after_disconnect,
      listen_external_websocket_cleanup, complete_send, htask, hopen, hmem, hr]

/-- C3 (witness): the amended theorem applied to the one-waiter state. -/
theorem disconnect_waiter_amended_witness :
    "1" ∈ (disconnect_external_websocket one_waiter_state).2 :=
  (disconnect_waiter_amended one_waiter_state "1" ⟨0, false⟩
    (by decide) (by decide) (by decide)).1

/-- C4 (counterexample): the claim fails as stated. Calling
`connect_to_external_websocket` twice in a row (successful handshake), the
second call does not fail with an `AlreadyConnected` error reported to the
caller: lines 143–145 log a warning and return normally. The existing
connection is indeed unaffected (the state is returned unchanged). -/
theorem connect_twice_counterexample :
    (connect_to_external_websocket
        (connect_to_external_websocket TransportState.initial true).2 true).1
      = ConnectOutcome.alreadyConnectedWarning ∧
    (connect_to_external_websocket
        (connect_to_external_websocket TransportState.initial true).2 true).1
      ≠ ConnectOutcome.raisedAlreadyConnected ∧
    (connect_to_external_websocket
        (connect_to_external_websocket TransportState.initial true).2 true).2
      = (connect_to_external_websocket TransportState.initial true).2 := by
  decide

/-- C4 (amended): a `connect_to_external_websocket` call while an external
connection is already live is a silent no-op: it logs a warning and
returns normally — reporting no error to the caller — and leaves the
existing underlying connection and all transport state unaffected. -/
theorem connect_twice_amended (s : TransportState) (hk : Bool)
    (hconn : s.external_conn_open = true) :
    connect_to_external_websocket s hk
      = (ConnectOutcome.alreadyConnectedWarning, s) := by
  simp [connect_to_external_websocket, hconn]

/-- C4 (witness): the amended theorem applied to a live transport. -/
theorem connect_twice_amended_witness :
    connect_to_external_websocket connected_empty_state true
      = (ConnectOutcome.alreadyConnectedWarning, connected_empty_state) :=
  connect_twice_amended connected_empty_state true (by decide)

/-- C5 (counterexample): the claim fails as stated. The two
configurations differ in `connection_timeout` (30 vs 1) yet produce the
identical `websockets.connect` invocation — which carries no
`open_timeout`/`connection_timeout` argument at all — so the connect
operation's wait for handshake completion cannot be bounded by the
configured `connection_timeout` (it could not be bounded by both 30 and 1
while behaving identically; the bound is the websockets library's
default, independent of the configuration). -/
theorem connect_timeout_counterexample :
    TransportConfig.defaults.connection_timeout ≠ cfg_timeout_one.connection_timeout ∧
    connect_kwargs TransportConfig.defaults = connect_kwargs cfg_timeout_one ∧
    dlookup "open_timeout" (connect_kwargs TransportConfig.defaults) = none ∧
    dlookup "connection_timeout" (connect_kwargs TransportConfig.defaults) = none := by
  decide

/-- C5 (amended): the arguments `connect_to_external_websocket` passes to
`websockets.connect` are exactly `ping_interval`, `ping_timeout` and
`close_timeout` — two configurations agreeing on those three fields make
the identical connect call whatever their `connection_timeout`, which is
stored at line 47 and never read — and a handshake failure is reported to
the caller by re-raising the connect exception, with no state change. -/
theorem connect_timeout_amended (c1 c2 : TransportConfig) (s : TransportState)
    (hpi : c1.ping_interval = c2.ping_interval)
    (hpt : c1.ping_timeout = c2.ping_timeout)
    (hct : c1.close_timeout = c2.close_timeout)
    (hconn : s.external_conn_open = false) :
    connect_kwargs c1 = connect_kwargs c2 ∧
    connect_to_external_websocket s false
      = (ConnectOutcome.raisedConnectError, s) := by
  constructor
  · simp [connect_kwargs, hpi, hpt, hct]
  · simp [connect_to_external_websocket, hconn]

/-- C5 (witness): the amended theorem applied to the default configuration
and its `connection_timeout := 1` variant, on a fresh transport. -/
theorem connect_timeout_amended_witness :
    connect_kwargs TransportConfig.defaults = connect_kwargs cfg_timeout_one :=
  (connect_timeout_amended TransportConfig.defaults cfg_timeout_one
    TransportState.initial (by decide) (by decide) (by decide) (by decide)).1

/-- C6 (counterexample): the claim fails as stated. In `one_waiter_state`
the id `"1"` is already registered (event token 0, unset); registering it
again succeeds — no `DuplicateId` error — and silently replaces the
existing waiter: the table now holds the fresh event (token 1) and the
previously registered waiter's event is discarded. -/
theorem register_duplicate_counterexample :
    dlookup "1" one_waiter_state.pending_requests = some ⟨0, false⟩ ∧
    (register_pending one_waiter_state "1").1 = RegisterOutcome.registered ∧
    (register_pending one_waiter_state "1").1 ≠ RegisterOutcome.duplicateIdError ∧
    dlookup "1" (register_pending one_waiter_state "1").2.pending_requests
      = some ⟨1, false⟩ ∧
    some (⟨1, false⟩ : PEntry) ≠ some (⟨0, false⟩ : PEntry) := by
  decide

/-- C6 (amended): registering a pending request under an id that is
already registered never fails with a `DuplicateId` error — the
registration of lines 194–196 always reports success — and it silently
replaces the waiter already registered under that id: the table afterwards
holds the fresh event, not the one previously registered (whose token is
strictly older). -/
theorem register_duplicate_amended (s : TransportState) (rid : String) (e : PEntry)
    (hdup : dlookup rid s.pending_requests = some e)
    (htok : e.token < s.next_token) :
    (register_pending s rid).1 = RegisterOutcome.registered ∧
    dlookup rid (register_pending s rid).2.pending_requests
      = some ⟨s.next_token, false⟩ ∧
    some (⟨s.next_token, false⟩ : PEntry) ≠ some e := by
  refine ⟨rfl, ?_, ?_⟩
  · simp [register_pending, dlookup_dinsert_self]
  · intro h
    have he : e = ⟨s.next_token, false⟩ := by
      injection h with h'
      exact h'.symm
    rw [he] at htok
    exact absurd htok (lt_irrefl _)

/-- C6 (witness): the amended theorem applied to the one-waiter state. -/
theorem register_duplicate_amended_witness :
    (register_pending one_waiter_state "1").1 = RegisterOutcome.registered :=
  (register_duplicate_amended one_waiter_state "1" ⟨0, false⟩
    (by decide) (by decide)).1

/-- C7 (counterexample): the claim fails as stated. Dispatching
`{"jsonrpc":"2.0","id":"1","method":"initialize","params":{}}` does return
a response with the request's id, but its result's `capabilities` object
has the keys tools, resources, prompts *and logging* (line 280) — not
exactly tools, resources, prompts — so the result is not the object the
claim prescribes for any serverInfo strings; in particular it differs from
the spec shape at the code's own name and version. -/
theorem initialize_capabilities_counterexample :
    process_mcp_message .nil (.request (.str "1") "initialize" .nil)
      = some (.response (.str "1") initialize_result) ∧
    capability_names initialize_result
      = ["tools", "resources", "prompts", "logging"] ∧
    ["tools", "resources", "prompts", "logging"]
      ≠ ["tools", "resources", "prompts"] ∧
    initialize_result
      ≠ spec_initialize_result "FastAPI-MCP WebSocket Server" "0.4.0" := by
  decide

/-- C7 (amended): for every inbound request with method `"initialize"`,
dispatch returns a Response whose id equals the request's id and whose
result is exactly `{"protocolVersion":"2024-11-05","capabilities":
{"tools":{},"resources":{},"prompts":{},"logging":{}},"serverInfo":
{"name":"FastAPI-MCP WebSocket Server","version":"0.4.0"}}` — i.e.
`result.protocolVersion` equals `"2024-11-05"` and the capabilities object
has exactly the keys tools, resources, prompts, logging. -/
theorem initialize_response_amended (tools : JArr) (rid : RId) (params : JObj) :
    process_mcp_message tools (.request rid "initialize" params)
      = some (.response rid initialize_result) ∧
    initialize_result.lookup "protocolVersion" = some (.str "2024-11-05") ∧
    capability_names initialize_result
      = ["tools", "resources", "prompts", "logging"] ∧
    initialize_result.lookup "serverInfo"
      = some (.obj (.cons "name" (.str "FastAPI-MCP WebSocket Server")
          (.cons "version" (.str "0.4.0") .nil))) :=
  ⟨rfl, by decide, by decide, by decide⟩

/-- C9: `shutdown` is idempotent and leaves the transport empty: after it
runs there are zero open inbound sessions and zero pending requests, and a
second call changes nothing and reports no close failure at all (there is
no session left to attempt, and the external branches are all skipped).
The hypothesis is the single-threaded reachability invariant that a
non-empty pending table implies a live receive-loop task (a waiter can
only be pending while the loop that would clean it up runs). -/
theorem shutdown_idempotent (f : String → Bool) (s : TransportState)
    (hinv : s.pending_requests ≠ [] → s.task_live = true) :
    (shutdown f s).1.active_connections = [] ∧
    (shutdown f s).1.pending_requests = [] ∧
    shutdown f (shutdown f s).1 = ((shutdown f s).1, []) := by
  obtain ⟨ac, eo, tl, pr, rs, nt⟩ := s
  by_cases ht : tl = true
  · subst ht
    by_cases ho : eo = true <;>
      simp_all [shutdown, disconnect_external_websocket,
        listen_external_websocket_cleanup]
  · have htl : tl = false := by
      cases tl
      · rfl
      · exact absurd rfl ht
    have hpr : pr = [] := by
      by_cases hpe : pr = []
      · exact hpe
      · have := hinv hpe
        simp at this
        rw [this] at htl
        exact absurd htl (by simp)
    subst htl
    subst hpr
    by_cases ho : eo = true <;>
      simp_all [shutdown, disconnect_external_websocket,
        listen_external_websocket_cleanup]

/-- C9 (witness): the idempotence theorem applied to a transport in full
flight (two sessions, live connection, one pending request), with no
session close failing. -/
theorem shutdown_idempotent_witness :
    (shutdown (fun _ => false) busy_state).1.active_connections = [] :=
  (shutdown_idempotent (fun _ => false) busy_state (fun _ => rfl)).1

/-- C10: both error frames the inbound receive loop itself emits carry id
null whatever the offending frame held — the `-32700` Parse-error reply
for a frame that fails validation (built with `id=None` at line 103) and
the `-32603` Internal-error reply for an exception escaping dispatch to
the loop (built with `id=None` at line 116, even when the decoded message
`m` carried a non-null id, over which this theorem quantifies) — and in
both cases the loop continues to the next frame (the Boolean component)
rather than terminating the session. -/
theorem session_error_frames_id_null (tools : JArr) (exc : Option String)
    (e : String) (m : Message) (e2 : String) :
    handle_fastapi_websocket_step tools (.error e) exc
      = (SessionAction.reply (.error none (-32700) "Parse error"
          (some (.cons "validation_error" (.str e) .nil))), true) ∧
    handle_fastapi_websocket_step tools (.ok m) (some e2)
      = (SessionAction.reply (.error none (-32603) "Internal error"
          (some (.cons "error" (.str e2) .nil))), true) :=
  ⟨rfl, rfl⟩
